import Mathlib

/-!
Verification of the resolve-fetch-stream pipeline of server.js (an Express
proxy that validates an Instagram reel URL, resolves a direct video URL via
an upstream metadata API with retry, fetches the bytes and streams them back).

The embedding is shallow: each definition below mirrors a function or block
of server.js (line numbers cited in the doc comments). Network I/O is made
explicit by passing the upstream's behaviour as a function from the attempt
number to that attempt's outcome; the retry interceptor (the retry-axios
library attached at line 19 and configured per request) is modelled as a
pure recursion over attempt numbers that also counts the calls issued.
-/

/-! ## JavaScript value model and string helpers -/

/-- Boolean test that the character list p is a prefix of cs (character by
    character, as a regex engine matches a literal at the current position). -/
def charsStartWith : List Char → List Char → Bool
  | [], _ => true
  | _ :: _, [] => false
  | a :: p, c :: cs => a == c && charsStartWith p cs

/-- Boolean test that t occurs contiguously somewhere in cs; this is the
    semantics of JavaScript String.prototype.includes. -/
def charsContain (t : List Char) : List Char → Bool
  | [] => charsStartWith t []
  | c :: cs => charsStartWith t (c :: cs) || charsContain t cs

/-- JavaScript s.includes(t). -/
def includesSubstr (s t : String) : Bool := charsContain t.data s.data

/-- JavaScript truthiness of a string field that may be absent: undefined is
    falsy, and a string is falsy exactly when it is empty. -/
def truthyOptStr : Option String → Bool
  | none => false
  | some s => !(s == "")

/-- Rendering of a possibly-undefined string inside a JS template literal:
    an undefined value is interpolated as the text "undefined". -/
def optStr : Option String → String
  | none => "undefined"
  | some s => s

/-! ## Data model: the upstream JSON contract (server.js lines 107-113) -/

/-- The nested data object of the metadata API's response. Both fields may be
    absent in an arbitrary JSON object, so they are Options. -/
structure VideoData where
  videoUrl : Option String
  filename : Option String
deriving DecidableEq, Repr

/-- A JSON object body as the handler projects it: a status field and a data
    field, each possibly absent. Extra fields of the real JSON are irrelevant
    to the code and are not modelled. -/
structure VideoInfo where
  status : Option String
  data : Option VideoData
deriving DecidableEq, Repr

/-- A parsed JSON response body as axios delivers it (response.data). -/
inductive JsonVal where
  | nullV
  | boolV (b : Bool)
  | strV (s : String)
  | numV (n : Int)
  | obj (vi : VideoInfo)
deriving DecidableEq, Repr

/-- JavaScript truthiness of a JSON value. -/
def jsTruthy : JsonVal → Bool
  | .nullV => false
  | .boolV b => b
  | .strV s => !(s == "")
  | .numV n => !(n == 0)
  | .obj _ => true

/-- JavaScript: typeof v === 'object' (true for null and for objects). -/
def jsTypeIsObject : JsonVal → Bool
  | .nullV => true
  | .obj _ => true
  | _ => false

/-! ## URL Validator (server.js lines 24-27)

    validateInstagramUrl runs
    regex.test with regex = /^https:\/\/(?:www\.)?instagram\.com\/reel\/([A-Za-z0-9_-]+)/ .
    The regex is anchored at the start only: test succeeds exactly when the
    string begins with one of the two literal prefixes (with or without
    "www.") followed by at least one id character; anything may follow. The
    two alternatives are disjoint (after "https://" the next characters are
    either "www." or "inst", never both), so the optional group is an OR of
    two literal-prefix patterns. -/

/-- Membership in the regex character class [A-Za-z0-9_-]. -/
def isIdChar (c : Char) : Bool :=
  (decide ('A' ≤ c) && decide (c ≤ 'Z')) || (decide ('a' ≤ c) && decide (c ≤ 'z')) ||
    (decide ('0' ≤ c) && decide (c ≤ '9')) || c == '_' || c == '-'

/-- Matching of one regex alternative against the whole input: the literal
    prefix p, then at least one id character, then anything. -/
def validateAlt (p : List Char) (cs : List Char) : Bool :=
  match p, cs with
  | [], [] => false
  | [], c :: _ => isIdChar c
  | _ :: _, [] => false
  | a :: q, c :: cs2 => a == c && validateAlt q cs2

/-- The literal prefix of the regex alternative without "www.". -/
def reelAlt1 : List Char := "https://instagram.com/reel/".data

/-- The literal prefix of the regex alternative with "www.". -/
def reelAlt2 : List Char := "https://www.instagram.com/reel/".data

/-- Lines 24-27: const validateInstagramUrl = (url) => regex.test(url). -/
def validateInstagramUrl (url : String) : Bool :=
  validateAlt reelAlt2 url.data || validateAlt reelAlt1 url.data

/-! ## The retry-axios interceptor (attached line 19, configured lines 34-42)

    retry-axios intercepts every failed request of the axios instance. Its
    shouldRetryRequest retries when: for a response-less (transport) error,
    the current retry attempt is below noResponseRetries; for an error with a
    response, the status lies in one of the inclusive [min, max] ranges of
    statusCodesToRetry; and in either case the current retry attempt is below
    the retry count. The method (GET here) is always in the retried set. A
    response accepted by the request's validateStatus is no error at all and
    is never retried. Library defaults: retry 3, noResponseRetries 2,
    statusCodesToRetry [[100, 199], [429, 429], [500, 599]]. -/

/-- Status s lies in one of the inclusive ranges. -/
def statusInRanges (ranges : List (Nat × Nat)) (s : Nat) : Bool :=
  ranges.any fun r => decide (r.1 ≤ s) && decide (s ≤ r.2)

/-- The retry decision of retry-axios for the outcome of one attempt, where
    st is none for a transport error and some s for a response with HTTP
    status s that validateStatus judged; attempt is the number of retries
    already performed (0 on the initial request's failure). -/
def raxRetries (validate : Nat → Bool) (retry noResp : Nat) (ranges : List (Nat × Nat))
    (attempt : Nat) (st : Option Nat) : Bool :=
  match st with
  | none => decide (attempt < noResp) && decide (attempt < retry)
  | some s => !(validate s) && statusInRanges ranges s && decide (attempt < retry)

/-- One axios request with the retry interceptor: issue the attempt numbered
    a, retry while the interceptor says so, and return the final outcome
    together with the total number of upstream calls issued. The fuel only
    bounds the recursion; it is chosen large enough that it never runs out
    (each retry needs attempt < retry). -/
def raxGo {α : Type} (validate : Nat → Bool) (retry noResp : Nat)
    (ranges : List (Nat × Nat)) (toSt : α → Option Nat) (up : Nat → α) :
    Nat → Nat → α × Nat
  | 0, a => (up a, 1)
  | f + 1, a =>
      let r := up a
      if raxRetries validate retry noResp ranges a (toSt r) then
        let rest := raxGo validate retry noResp ranges toSt up f (a + 1)
        (rest.1, rest.2 + 1)
      else (r, 1)

/-- A full retried request, started at attempt 0 with ample fuel. -/
def raxRun {α : Type} (validate : Nat → Bool) (retry noResp : Nat)
    (ranges : List (Nat × Nat)) (toSt : α → Option Nat) (up : Nat → α) : α × Nat :=
  raxGo validate retry noResp ranges toSt up (retry + noResp + 1) 0

/-! ## Metadata Resolver: fetchVideoInfo (server.js lines 29-64) -/

/-- Outcome of one upstream call of the metadata API: an HTTP response with
    its status, content-type header and parsed JSON body, or a transport
    failure (timeout, connection error) carrying the axios error message. -/
inductive UpstreamResult where
  | response (status : Nat) (contentType : Option String) (body : JsonVal)
  | transportError (msg : String)
deriving DecidableEq, Repr

/-- The status the retry interceptor sees for a metadata-API outcome. -/
def UpstreamResult.statusOf : UpstreamResult → Option Nat
  | .response s _ _ => some s
  | .transportError _ => none

/-- Line 33: validateStatus: status => status === 200. -/
def infoValidateStatus (s : Nat) : Bool := s == 200

/-- Line 37: statusCodesToRetry: [[408, 429], [500, 599]]. -/
def infoRetryRanges : List (Nat × Nat) := [(408, 429), (500, 599)]

/-- Line 35: retry: 3 (the number of retries after the initial request). -/
def raxRetryMax : Nat := 3

/-- retry-axios default noResponseRetries (not overridden in raxConfig). -/
def raxNoResponseRetries : Nat := 2

/-- retry-axios default statusCodesToRetry, in force for requests issued
    without a raxConfig of their own (fetchVideo, line 68). -/
def raxDefaultRanges : List (Nat × Nat) := [(100, 199), (429, 429), (500, 599)]

/-- axios default validateStatus (fetchVideo sets none): 2xx is success. -/
def mediaValidateStatus (s : Nat) : Bool := decide (200 ≤ s) && decide (s < 300)

/-- Result of fetchVideoInfo: the returned response.data, or the message of
    the wrapped error thrown at line 62. -/
inductive InfoOutcome where
  | ok (vi : VideoInfo)
  | errMsg (m : String)
deriving DecidableEq, Repr

/-- Lines 44-62: what fetchVideoInfo does with the final axios outcome. A
    non-200 status was rejected by validateStatus, so axios threw with the
    message "Request failed with status code N"; a 200 response is checked
    for an HTML content-type (lines 46-49) and for a truthy object body
    (lines 51-53); every failure is re-wrapped at line 62 with the prefix
    "Failed to fetch video info: ". The final match arm is unreachable: the
    only truthy object-typed JsonVal is obj. -/
def infoOutcomeOf : UpstreamResult → InfoOutcome
  | .transportError m => .errMsg ("Failed to fetch video info: " ++ m)
  | .response st ct body =>
      if st == 200 then
        if (match ct with
            | none => false
            | some c => includesSubstr c "text/html") then
          .errMsg "Failed to fetch video info: API returned HTML instead of JSON"
        else if !(jsTruthy body) || !(jsTypeIsObject body) then
          .errMsg "Failed to fetch video info: Invalid API response format"
        else
          match body with
          | .obj vi => .ok vi
          | _ => .errMsg "Failed to fetch video info: Invalid API response format"
      else
        .errMsg ("Failed to fetch video info: Request failed with status code " ++ toString st)

/-- Lines 29-64: fetchVideoInfo run against an upstream behaviour (the
    outcome of each attempt, by attempt number). Returns the outcome and the
    total number of upstream calls issued by the retry interceptor. -/
def fetchVideoInfoRun (up : Nat → UpstreamResult) : InfoOutcome × Nat :=
  let r := raxRun infoValidateStatus raxRetryMax raxNoResponseRetries infoRetryRanges
    UpstreamResult.statusOf up
  (infoOutcomeOf r.1, r.2)

/-! ## Media Fetcher: fetchVideo (server.js lines 66-90) -/

/-- Outcome of one upstream call for the media URL: a response with status,
    the content-type and content-length headers and the body bytes, or a
    transport failure. -/
inductive MediaUpstream where
  | response (status : Nat) (contentType : Option String) (contentLength : Option String)
      (body : List Nat)
  | transportError (msg : String)
deriving DecidableEq, Repr

/-- The status the retry interceptor sees for a media outcome. -/
def MediaUpstream.statusOf : MediaUpstream → Option Nat
  | .response s _ _ _ => some s
  | .transportError _ => none

/-- Lines 79-82: the value fetchVideo returns — the bytes plus the response
    headers the handler reads (content-type, content-length). -/
structure MediaResponse where
  data : List Nat
  contentType : Option String
  contentLength : Option String
deriving DecidableEq, Repr

/-- Result of fetchVideo: the response, or the message of the wrapped error
    thrown at line 88. -/
inductive MediaOutcome where
  | ok (r : MediaResponse)
  | errMsg (m : String)
deriving DecidableEq, Repr

/-- Lines 66-90: what fetchVideo does with the final axios outcome. With no
    validateStatus of its own, axios accepts exactly 2xx; everything else is
    wrapped at line 88 with the prefix "Failed to fetch video: ". -/
def mediaOutcomeOf : MediaUpstream → MediaOutcome
  | .transportError m => .errMsg ("Failed to fetch video: " ++ m)
  | .response st ct cl body =>
      if mediaValidateStatus st then .ok ⟨body, ct, cl⟩
      else .errMsg ("Failed to fetch video: Request failed with status code " ++ toString st)

/-- Lines 66-90: fetchVideo run against an upstream behaviour. The request
    carries no raxConfig, so the interceptor attached at line 19 applies the
    retry-axios defaults. Returns the outcome and the number of GETs issued. -/
def fetchVideoRun (up : Nat → MediaUpstream) : MediaOutcome × Nat :=
  let r := raxRun mediaValidateStatus raxRetryMax raxNoResponseRetries raxDefaultRanges
    MediaUpstream.statusOf up
  (mediaOutcomeOf r.1, r.2)

/-! ## Request Handler: app.get('/download') (server.js lines 92-155) -/

/-- An outbound HTTP response: a JSON error body with its status, error and
    optional message fields, or a byte body with its status and headers. -/
inductive HttpResponse where
  | json (status : Nat) (error : String) (message : Option String)
  | bytes (status : Nat) (headers : List (String × String)) (body : List Nat)
deriving DecidableEq, Repr

/-- The HTTP status of a response. -/
def HttpResponse.statusOf : HttpResponse → Nat
  | .json s _ _ => s
  | .bytes s _ _ => s

/-- The handler's observable behaviour: the response sent, and how many
    upstream calls the metadata resolution and the media fetch issued. -/
structure HandlerResult where
  response : HttpResponse
  infoCalls : Nat
  mediaCalls : Nat
deriving DecidableEq, Repr

/-- JavaScript strict equality between a boolean and a string: always false,
    whatever the operands (=== across types). -/
def jsEqBoolStr (_ : Bool) (_ : String) : Bool := false

/-- Line 110: if (!videoInfo.status === 'success' || !videoInfo.data?.videoUrl).
    In JavaScript ! binds tighter than ===, so the left operand is the
    boolean !videoInfo.status compared by === with the string 'success',
    which is always false; the whole test reduces to the right disjunct. -/
def videoInfoInvalid (vi : VideoInfo) : Bool :=
  jsEqBoolStr (!(truthyOptStr vi.status)) "success" ||
    !(truthyOptStr (vi.data.bind fun d => d.videoUrl))

/-- Lines 146-153: the catch block of the handler. NODE_ENV is passed as the
    raw environment value (absent or any string). -/
def catchResponse (nodeEnv : Option String) (errMsg : String) : HttpResponse :=
  .json 500 "Internal server error"
    (some (if nodeEnv == some "development" then errMsg else "Failed to process video download"))

/-- Lines 163-174: the boundary error-handling middleware. The message field
    is undefined (absent from the JSON body) outside development. -/
def boundaryResponse (nodeEnv : Option String) (errMsg : String) : HttpResponse :=
  .json 500 "Something went wrong"
    (if nodeEnv == some "development" then some errMsg else none)

/-- Line 119: !contentType?.includes('video') — an absent header short-circuits
    to undefined, which is falsy, so the guard fails the request. -/
def ctHasVideo : Option String → Bool
  | none => false
  | some c => includesSubstr c "video"

/-- Lines 124-129: the five headers set on the success path. At this point
    videoInfo.data exists (the line-110 guard required data?.videoUrl truthy);
    a missing filename is interpolated by the template literal at line 127 as
    the text "undefined". -/
def successHeaders (vi : VideoInfo) (vr : MediaResponse) : List (String × String) :=
  [("Content-Type", optStr vr.contentType),
   ("Content-Length", optStr vr.contentLength),
   ("Content-Disposition", "attachment; filename=" ++ optStr (vi.data.bind fun d => d.filename)),
   ("Accept-Ranges", "bytes"),
   ("Cache-Control", "public, max-age=3600")]

/-- Lines 116-137: the handler after a VideoInfo passed the line-110 guard —
    the outcome of fetchVideo is examined (a thrown fetch error falls to the
    catch block), the content type must contain "video" (line 119), then the
    headers are set and the bytes sent. -/
def handleMedia (nodeEnv : Option String) (vi : VideoInfo) (m : MediaOutcome)
    (nInfo nMedia : Nat) : HandlerResult :=
  match m with
  | .errMsg msg => ⟨catchResponse nodeEnv msg, nInfo, nMedia⟩
  | .ok vr =>
      if ctHasVideo vr.contentType then
        ⟨.bytes 200 (successHeaders vi vr) vr.data, nInfo, nMedia⟩
      else
        ⟨.json 400 "Invalid video content type" none, nInfo, nMedia⟩

/-- Lines 110-137: the handler once fetchVideoInfo returned a VideoInfo. -/
def handleVideoInfo (nodeEnv : Option String) (vi : VideoInfo)
    (mediaUp : Nat → MediaUpstream) (nInfo : Nat) : HandlerResult :=
  if videoInfoInvalid vi then
    ⟨.json 400 "Failed to get video URL from API" none, nInfo, 0⟩
  else
    let media := fetchVideoRun mediaUp
    handleMedia nodeEnv vi media.1 nInfo media.2

/-- Lines 92-155: the download request handler. The url query parameter is
    absent or a string; the line-97 guard fires on any falsy value, i.e. on
    an absent parameter and on the empty string alike. A thrown error from
    fetchVideoInfo lands in the catch block (lines 139-153). -/
def downloadHandler (nodeEnv : Option String) (url : Option String)
    (infoUp : Nat → UpstreamResult) (mediaUp : Nat → MediaUpstream) : HandlerResult :=
  if !(truthyOptStr url) then
    ⟨.json 400 "URL parameter is required" none, 0, 0⟩
  else if !(validateInstagramUrl (url.getD "")) then
    ⟨.json 400 "Invalid Instagram reel URL format" none, 0, 0⟩
  else
    let info := fetchVideoInfoRun infoUp
    match info.1 with
    | .errMsg m => ⟨catchResponse nodeEnv m, info.2, 0⟩
    | .ok vi => handleVideoInfo nodeEnv vi mediaUp info.2

/-! ## Concrete upstream behaviours used in the theorems below -/

/-- A well-formed metadata payload as the upstream contract describes it. -/
def viGood : VideoInfo := ⟨some "success", some ⟨some "https://x/video.mp4", some "v.mp4"⟩⟩

/-- A payload whose status is not the success sentinel but whose videoUrl is
    present and non-empty. -/
def viBadStatus : VideoInfo := ⟨some "error", some ⟨some "https://x/v.mp4", some "v.mp4"⟩⟩

/-- A payload with a non-empty videoUrl and no filename field. -/
def viNoName : VideoInfo := ⟨some "success", some ⟨some "https://x/v.mp4", none⟩⟩

/-- Metadata upstream answering 200 with an HTML error page on every call. -/
def infoUpHtml : Nat → UpstreamResult :=
  fun _ => .response 200 (some "text/html") (.strV "<html>")

/-- Metadata upstream answering 200 with a good JSON payload on every call. -/
def infoUpOk : Nat → UpstreamResult :=
  fun _ => .response 200 (some "application/json") (.obj viGood)

/-- Metadata upstream answering 200 with the bad-status payload. -/
def infoUpBadStatus : Nat → UpstreamResult :=
  fun _ => .response 200 (some "application/json") (.obj viBadStatus)

/-- Metadata upstream answering 200 with the filename-less payload. -/
def infoUpNoName : Nat → UpstreamResult :=
  fun _ => .response 200 (some "application/json") (.obj viNoName)

/-- Metadata upstream answering 415 on the first call and 200 with a good
    payload afterwards. -/
def infoUp415 : Nat → UpstreamResult :=
  fun n => if n = 0 then .response 415 none .nullV
           else .response 200 (some "application/json") (.obj viGood)

/-- Metadata upstream answering 500 on every call. -/
def infoUpAll500 : Nat → UpstreamResult := fun _ => .response 500 none .nullV

/-- Metadata upstream answering 500 on the first two calls and 200 with a
    good payload on the third. -/
def infoUpTwo500 : Nat → UpstreamResult :=
  fun n => if n < 2 then .response 500 none .nullV
           else .response 200 (some "application/json") (.obj viGood)

/-- Media upstream that is never reached in the runs that use it. -/
def mediaUpUnused : Nat → MediaUpstream := fun _ => .transportError "unused"

/-- Media upstream answering 200 with three video bytes on every call. -/
def mediaUpOk : Nat → MediaUpstream :=
  fun _ => .response 200 (some "video/mp4") (some "3") [9, 9, 9]

/-- Media upstream answering 500 on every call. -/
def mediaUpAll500 : Nat → MediaUpstream :=
  fun _ => .response 500 (some "video/mp4") (some "2") [1, 2]

/-- Media upstream answering 404 on every call. -/
def mediaUp404 : Nat → MediaUpstream :=
  fun _ => .response 404 (some "video/mp4") (some "2") [1, 2]

/-- The URL Validator as claim C6 words it: the entire string must be the
    literal prefix followed by one or more id characters and nothing else.
    Written from the claim's words, to be compared with validateInstagramUrl. -/
def claimedAlt (p : List Char) (cs : List Char) : Bool :=
  match p, cs with
  | [], rest => !(rest.isEmpty) && rest.all isIdChar
  | _ :: _, [] => false
  | a :: q, c :: cs2 => a == c && claimedAlt q cs2

/-- The claim-C6 validator over the two host alternatives. -/
def claimedValidate (s : String) : Bool :=
  claimedAlt reelAlt2 s.data || claimedAlt reelAlt1 s.data

/-! ## Helper lemmas about the retry recursion -/

/-- A retry decision is only positive below the configured retry count. -/
theorem raxRetries_lt_retry (validate : Nat → Bool) (retry noResp : Nat)
    (ranges : List (Nat × Nat)) (a : Nat) (st : Option Nat)
    (h : raxRetries validate retry noResp ranges a st = true) : a < retry := by
  cases st with
  | none =>
      simp only [raxRetries, Bool.and_eq_true, decide_eq_true_eq] at h
      exact h.2
  | some s =>
      simp only [raxRetries, Bool.and_eq_true, decide_eq_true_eq] at h
      exact h.2

/-- Unfolding of one step of the retry recursion. -/
theorem raxGo_succ_eq {α : Type} (validate : Nat → Bool) (retry noResp : Nat)
    (ranges : List (Nat × Nat)) (toSt : α → Option Nat) (up : Nat → α) (f a : Nat) :
    raxGo validate retry noResp ranges toSt up (f + 1) a =
      if raxRetries validate retry noResp ranges a (toSt (up a)) then
        ((raxGo validate retry noResp ranges toSt up f (a + 1)).1,
          (raxGo validate retry noResp ranges toSt up f (a + 1)).2 + 1)
      else (up a, 1) := rfl

/-- The number of calls issued from retry attempt a onwards is bounded by
    one plus the remaining retry budget. -/
theorem raxGo_calls_le {α : Type} (validate : Nat → Bool) (retry noResp : Nat)
    (ranges : List (Nat × Nat)) (toSt : α → Option Nat) (up : Nat → α) :
    ∀ f a : Nat, (raxGo validate retry noResp ranges toSt up f a).2 ≤ 1 + (retry - a) := by
  intro f
  induction f with
  | zero => intro a; simp [raxGo]
  | succ f ih =>
      intro a
      rw [raxGo_succ_eq]
      by_cases h : raxRetries validate retry noResp ranges a (toSt (up a)) = true
      · have ha := raxRetries_lt_retry validate retry noResp ranges a (toSt (up a)) h
        rw [if_pos h]
        have hr := ih (a + 1)
        simp only []
        omega
      · rw [if_neg h]
        simp

/-- At least one call is always issued. -/
theorem raxGo_calls_pos {α : Type} (validate : Nat → Bool) (retry noResp : Nat)
    (ranges : List (Nat × Nat)) (toSt : α → Option Nat) (up : Nat → α) (f a : Nat) :
    1 ≤ (raxGo validate retry noResp ranges toSt up f a).2 := by
  cases f with
  | zero => simp [raxGo]
  | succ f =>
      rw [raxGo_succ_eq]
      by_cases h : raxRetries validate retry noResp ranges a (toSt (up a)) = true
      · rw [if_pos h]; omega
      · rw [if_neg h]

/-! ## Claims C3, C4, C5: the retry policies -/

/-- C3 counterexample: the claim says only 408, 429 and the 5xx statuses are
    retried and in particular 409 through 428 are not; but the interceptor's
    statusCodesToRetry entries are inclusive ranges, so a 415 response is
    retried — an upstream answering 415 then 200 is called twice and the
    resolution succeeds, where the claim predicts a single call and failure. -/
theorem c3_counterexample :
    raxRetries infoValidateStatus raxRetryMax raxNoResponseRetries infoRetryRanges 0
        (some 415) = true ∧
      fetchVideoInfoRun infoUp415 = (.ok viGood, 2) := by
  constructor
  · decide
  · decide

/-- C3 (amended): the Metadata Resolver retries an upstream request exactly
    when the HTTP status code lies in the inclusive range 408-429 or in
    500-599; statusCodesToRetry holds ranges, not individual codes. -/
theorem c3_retry_on_configured_ranges (s : Nat) :
    raxRetries infoValidateStatus raxRetryMax raxNoResponseRetries infoRetryRanges 0
        (some s) = true ↔
      (408 ≤ s ∧ s ≤ 429) ∨ (500 ≤ s ∧ s ≤ 599) := by
  simp only [raxRetries, infoValidateStatus, infoRetryRanges, raxRetryMax, statusInRanges,
    List.any_cons, List.any_nil, Bool.and_eq_true, Bool.or_eq_true, Bool.not_eq_true',
    beq_eq_false_iff_ne, ne_eq, decide_eq_true_eq, Bool.or_false]
  omega

/-- Witness for C3: status 415 is inside the retried range 408-429. -/
theorem c3_witness : (408 ≤ 415 ∧ 415 ≤ 429) ∨ (500 ≤ 415 ∧ 415 ≤ 599) :=
  (c3_retry_on_configured_ranges 415).mp (by decide)

/-- C4 counterexample: with retry set to 3, an upstream answering 500 on
    every attempt is called 4 times in total (the initial request plus three
    retries) before the resolution fails — not 3 as the claim states. -/
theorem c4_counterexample :
    (fetchVideoInfoRun infoUpAll500).2 = 4 ∧
      (fetchVideoInfoRun infoUpAll500).1 =
        .errMsg "Failed to fetch video info: Request failed with status code 500" := by
  constructor
  · decide
  · decide

/-- C4 (amended): a metadata resolution issues at most 4 upstream calls in
    total (1 initial + 3 retries); an upstream returning 500 on the first two
    attempts and 200 on the third succeeds after exactly 3 calls; one
    returning 500 on every attempt fails after exactly 4 calls. -/
theorem c4_retry_call_bound :
    (∀ up : Nat → UpstreamResult, (fetchVideoInfoRun up).2 ≤ 4) ∧
      fetchVideoInfoRun infoUpTwo500 = (.ok viGood, 3) ∧
      (fetchVideoInfoRun infoUpAll500).2 = 4 := by
  refine ⟨?_, by decide, by decide⟩
  intro up
  have h := raxGo_calls_le infoValidateStatus raxRetryMax raxNoResponseRetries infoRetryRanges
    UpstreamResult.statusOf up (raxRetryMax + raxNoResponseRetries + 1) 0
  simp only [fetchVideoInfoRun, raxRun]
  simpa [raxRetryMax] using h

/-- C5 counterexample: the retry interceptor is attached to the shared axios
    instance, so the media fetch is retried under the library defaults — an
    upstream answering 500 on every attempt receives 4 GETs, not 1. -/
theorem c5_counterexample : (fetchVideoRun mediaUpAll500).2 = 4 := by decide

/-- C5 (amended): the Media Fetcher inherits the instance-wide retry-axios
    defaults: a media fetch issues between 1 and 4 GETs, and exactly one GET
    is issued precisely when the first attempt's outcome is not retryable
    under the default policy (statuses 100-199, 429 and 500-599 retried, as
    are the first two response-less transport failures). -/
theorem c5_media_fetch_retry_policy (up : Nat → MediaUpstream) :
    (fetchVideoRun up).2 ≤ 4 ∧
      ((fetchVideoRun up).2 = 1 ↔
        raxRetries mediaValidateStatus raxRetryMax raxNoResponseRetries raxDefaultRanges 0
          (MediaUpstream.statusOf (up 0)) = false) := by
  constructor
  · have h := raxGo_calls_le mediaValidateStatus raxRetryMax raxNoResponseRetries
      raxDefaultRanges MediaUpstream.statusOf up (raxRetryMax + raxNoResponseRetries + 1) 0
    simp only [fetchVideoRun, raxRun]
    simpa [raxRetryMax] using h
  · simp only [fetchVideoRun, raxRun]
    rw [raxGo_succ_eq]
    by_cases h : raxRetries mediaValidateStatus raxRetryMax raxNoResponseRetries
        raxDefaultRanges 0 (MediaUpstream.statusOf (up 0)) = true
    · rw [if_pos h, h]
      have hp := raxGo_calls_pos mediaValidateStatus raxRetryMax raxNoResponseRetries
        raxDefaultRanges MediaUpstream.statusOf up (raxRetryMax + raxNoResponseRetries) 1
      constructor
      · intro hc
        have hc2 : (raxGo mediaValidateStatus raxRetryMax raxNoResponseRetries
            raxDefaultRanges MediaUpstream.statusOf up
            (raxRetryMax + raxNoResponseRetries) 1).2 + 1 = 1 := hc
        omega
      · intro hc; exact absurd hc (by simp)
    · rw [if_neg h]
      simp only [Bool.not_eq_true] at h
      simp [h]

/-- Witness for C5: a first response outside the default retry ranges (404)
    completes in a single GET. -/
theorem c5_witness : (fetchVideoRun mediaUp404).2 = 1 :=
  (c5_media_fetch_retry_policy mediaUp404).2.mpr (by decide)

/-! ## Claim C6: the URL Validator -/

/-- Characterisation of one regex alternative: it matches exactly the lists
    that extend the literal prefix by at least one id character. -/
theorem validateAlt_iff (p : List Char) : ∀ cs : List Char,
    validateAlt p cs = true ↔ ∃ c t, isIdChar c = true ∧ cs = p ++ c :: t := by
  induction p with
  | nil =>
      intro cs
      cases cs with
      | nil => simp [validateAlt]
      | cons c cs2 =>
          simp only [validateAlt, List.nil_append, List.cons.injEq]
          constructor
          · intro h; exact ⟨c, cs2, h, rfl, rfl⟩
          · rintro ⟨c2, t, h, rfl, rfl⟩; exact h
  | cons a q ih =>
      intro cs
      cases cs with
      | nil => simp [validateAlt]
      | cons c cs2 =>
          simp only [validateAlt, Bool.and_eq_true, beq_iff_eq, ih cs2, List.cons_append,
            List.cons.injEq]
          constructor
          · rintro ⟨hac, c2, t, h, hrest⟩; exact ⟨c2, t, h, hac.symm, hrest⟩
          · rintro ⟨c2, t, h, hca, hrest⟩; exact ⟨hca.symm, c2, t, h, hrest⟩

/-- C6 counterexample: the regex is not anchored at the end, so a string with
    additional characters after the id — rejected by the claimed exact-form
    validator — is accepted by the code's validator. -/
theorem c6_counterexample :
    validateInstagramUrl "https://www.instagram.com/reel/abc?igsh=1" = true ∧
      claimedValidate "https://www.instagram.com/reel/abc?igsh=1" = false := by
  constructor
  · decide
  · decide

/-- C6 (amended): the URL Validator returns true for exactly the strings that
    begin with https://[www.]instagram.com/reel/ followed by at least one id
    character (letter, digit, underscore or hyphen); any characters may
    follow, so strings with additional characters after the id are accepted. -/
theorem c6_validator_prefix_semantics (s : String) :
    validateInstagramUrl s = true ↔
      ∃ w c t, (w = "https://instagram.com/reel/" ∨ w = "https://www.instagram.com/reel/") ∧
        isIdChar c = true ∧ s.data = w.data ++ c :: t := by
  unfold validateInstagramUrl
  rw [Bool.or_eq_true, validateAlt_iff, validateAlt_iff]
  constructor
  · rintro (⟨c, t, hc, hs⟩ | ⟨c, t, hc, hs⟩)
    · exact ⟨"https://www.instagram.com/reel/", c, t, Or.inr rfl, hc, hs⟩
    · exact ⟨"https://instagram.com/reel/", c, t, Or.inl rfl, hc, hs⟩
  · rintro ⟨w, c, t, hw, hc, hs⟩
    rcases hw with rfl | rfl
    · exact Or.inr ⟨c, t, hc, hs⟩
    · exact Or.inl ⟨c, t, hc, hs⟩

/-- Witness for C6: the amended characterisation applied to a minimal
    accepted URL. -/
theorem c6_witness : validateInstagramUrl "https://instagram.com/reel/x7" = true :=
  (c6_validator_prefix_semantics "https://instagram.com/reel/x7").mpr
    ⟨"https://instagram.com/reel/", 'x', ['7'], Or.inl rfl, by decide, by decide⟩

/-! ## Claim C1: HTTP status of resolution failures -/

/-- C1 counterexample: a request with a valid reel URL whose metadata
    resolution fails (here the upstream answers 200 with an HTML page, one of
    the failure modes the claim lists) is answered with HTTP 500 from the
    catch block at lines 139-154 — not 400 as the claim states. -/
theorem c1_counterexample :
    downloadHandler none (some "https://instagram.com/reel/abc") infoUpHtml mediaUpUnused =
      ⟨.json 500 "Internal server error" (some "Failed to process video download"), 1, 0⟩ := by
  decide

/-- C1 (amended): for every request with a valid reel URL whose metadata
    resolution fails in fetchVideoInfo (network error, timeout, retry
    exhaustion, HTML content-type, or shape-validation failure — all of which
    surface as a thrown, wrapped error), the handler responds with HTTP
    status 500 via its catch block, not 400. -/
theorem c1_resolution_failure_yields_500 (nodeEnv : Option String) (url m : String)
    (infoUp : Nat → UpstreamResult) (mediaUp : Nat → MediaUpstream) (n : Nat)
    (hurl : validateInstagramUrl url = true)
    (hinfo : fetchVideoInfoRun infoUp = (.errMsg m, n)) :
    downloadHandler nodeEnv (some url) infoUp mediaUp = ⟨catchResponse nodeEnv m, n, 0⟩ ∧
      (catchResponse nodeEnv m).statusOf = 500 := by
  have hne : url ≠ "" := by
    intro h; rw [h] at hurl; exact absurd hurl (by decide)
  refine ⟨?_, rfl⟩
  simp [downloadHandler, truthyOptStr, hne, hurl, hinfo]

/-- Witness for C1: the amended theorem applied to the HTML upstream. -/
theorem c1_witness :
    downloadHandler none (some "https://instagram.com/reel/a") infoUpHtml mediaUpUnused =
      ⟨catchResponse none "Failed to fetch video info: API returned HTML instead of JSON", 1, 0⟩ ∧
      (catchResponse none
        "Failed to fetch video info: API returned HTML instead of JSON").statusOf = 500 :=
  c1_resolution_failure_yields_500 none "https://instagram.com/reel/a"
    "Failed to fetch video info: API returned HTML instead of JSON" infoUpHtml mediaUpUnused 1
    (by decide) (by decide)

/-! ## Claim C2: the VideoInfo status guard -/

/-- C2: the claim says a VideoInfo whose status differs from "success" is
    rejected with 400 "Failed to get video URL from API" and no media fetch;
    because ! binds tighter than === at line 110, the guard accepts any
    VideoInfo with a non-empty data.videoUrl: on the status "error" payload
    the handler fetches the media (one media call) and responds 200. -/
theorem c2_precedence_bug_run :
    videoInfoInvalid viBadStatus = false ∧
      downloadHandler none (some "https://www.instagram.com/reel/abc") infoUpBadStatus mediaUpOk =
        ⟨.bytes 200
          [("Content-Type", "video/mp4"), ("Content-Length", "3"),
           ("Content-Disposition", "attachment; filename=v.mp4"),
           ("Accept-Ranges", "bytes"), ("Cache-Control", "public, max-age=3600")]
          [9, 9, 9], 1, 1⟩ := by
  constructor
  · decide
  · decide

/-! ## Claims C7-C10: the handler's response paths -/

/-- C7: for every request with a valid reel URL, a resolver result of shape
    status "success" with a non-empty videoUrl and a filename, and a media
    fetch returning bytes whose content-type contains "video" (with a
    content-length header), the handler responds 200 with body equal to the
    fetched bytes, Content-Type and Content-Length copied from the fetch,
    Content-Disposition "attachment; filename=" followed by the filename,
    Accept-Ranges "bytes" and Cache-Control "public, max-age=3600". -/
theorem c7_success_path (nodeEnv : Option String) (url u f ct cl : String)
    (infoUp : Nat → UpstreamResult) (mediaUp : Nat → MediaUpstream)
    (bs : List Nat) (ni nm : Nat)
    (hurl : validateInstagramUrl url = true)
    (hinfo : fetchVideoInfoRun infoUp = (.ok ⟨some "success", some ⟨some u, some f⟩⟩, ni))
    (hu : u ≠ "")
    (hmedia : fetchVideoRun mediaUp = (.ok ⟨bs, some ct, some cl⟩, nm))
    (hct : includesSubstr ct "video" = true) :
    downloadHandler nodeEnv (some url) infoUp mediaUp =
      ⟨.bytes 200
        [("Content-Type", ct), ("Content-Length", cl),
         ("Content-Disposition", "attachment; filename=" ++ f),
         ("Accept-Ranges", "bytes"), ("Cache-Control", "public, max-age=3600")]
        bs, ni, nm⟩ := by
  have hne : url ≠ "" := by
    intro h; rw [h] at hurl; exact absurd hurl (by decide)
  simp [downloadHandler, truthyOptStr, hne, hurl, hinfo, handleVideoInfo, videoInfoInvalid,
    jsEqBoolStr, hu, hmedia, handleMedia, ctHasVideo, hct, successHeaders, optStr]

/-- Witness for C7: the success path on concrete upstreams. -/
theorem c7_witness :
    downloadHandler none (some "https://www.instagram.com/reel/abc") infoUpOk mediaUpOk =
      ⟨.bytes 200
        [("Content-Type", "video/mp4"), ("Content-Length", "3"),
         ("Content-Disposition", "attachment; filename=v.mp4"),
         ("Accept-Ranges", "bytes"), ("Cache-Control", "public, max-age=3600")]
        [9, 9, 9], 1, 1⟩ :=
  c7_success_path none "https://www.instagram.com/reel/abc" "https://x/video.mp4" "v.mp4"
    "video/mp4" "3" infoUpOk mediaUpOk [9, 9, 9] 1 1
    (by decide) (by decide) (by decide) (by decide) (by decide)

/-- C8: outside development, the 500 bodies leak nothing — for any two
    internal error messages, the catch block's response bodies are identical
    (error "Internal server error", message the fixed generic string), and
    the boundary middleware's 500 bodies are identical too (message absent). -/
theorem c8_nondev_500_uniform (nodeEnv : Option String) (m1 m2 : String)
    (h : nodeEnv ≠ some "development") :
    catchResponse nodeEnv m1 = catchResponse nodeEnv m2 ∧
      catchResponse nodeEnv m1 =
        .json 500 "Internal server error" (some "Failed to process video download") ∧
      boundaryResponse nodeEnv m1 = boundaryResponse nodeEnv m2 := by
  have hb : (nodeEnv == some "development") = false := by
    simp [h]
  simp [catchResponse, boundaryResponse, hb]

/-- Witness for C8: two different transport errors outside development. -/
theorem c8_witness :
    catchResponse none "ECONNRESET" = catchResponse none "socket hang up" ∧
      catchResponse none "ECONNRESET" =
        .json 500 "Internal server error" (some "Failed to process video download") ∧
      boundaryResponse none "ECONNRESET" = boundaryResponse none "socket hang up" :=
  c8_nondev_500_uniform none "ECONNRESET" "socket hang up" (by decide)

/-- C9: a url query parameter equal to the empty string is falsy, so it is
    treated exactly like a missing parameter: 400 with error "URL parameter
    is required" (not the invalid-format message) and no upstream call. -/
theorem c9_empty_url_like_missing (nodeEnv : Option String) (infoUp : Nat → UpstreamResult)
    (mediaUp : Nat → MediaUpstream) :
    downloadHandler nodeEnv (some "") infoUp mediaUp =
      ⟨.json 400 "URL parameter is required" none, 0, 0⟩ ∧
      downloadHandler nodeEnv none infoUp mediaUp =
        ⟨.json 400 "URL parameter is required" none, 0, 0⟩ :=
  ⟨rfl, rfl⟩

/-- C10: the line-110 guard does not look at filename — with a non-empty
    videoUrl and no filename field the pipeline proceeds, and the success
    response carries Content-Disposition "attachment; filename=undefined"
    (the template literal renders the missing field as "undefined"). -/
theorem c10_missing_filename_proceeds (nodeEnv : Option String) (url u ct cl : String)
    (infoUp : Nat → UpstreamResult) (mediaUp : Nat → MediaUpstream)
    (bs : List Nat) (ni nm : Nat)
    (hurl : validateInstagramUrl url = true)
    (hinfo : fetchVideoInfoRun infoUp = (.ok ⟨some "success", some ⟨some u, none⟩⟩, ni))
    (hu : u ≠ "")
    (hmedia : fetchVideoRun mediaUp = (.ok ⟨bs, some ct, some cl⟩, nm))
    (hct : includesSubstr ct "video" = true) :
    downloadHandler nodeEnv (some url) infoUp mediaUp =
      ⟨.bytes 200
        [("Content-Type", ct), ("Content-Length", cl),
         ("Content-Disposition", "attachment; filename=undefined"),
         ("Accept-Ranges", "bytes"), ("Cache-Control", "public, max-age=3600")]
        bs, ni, nm⟩ := by
  have hne : url ≠ "" := by
    intro h; rw [h] at hurl; exact absurd hurl (by decide)
  simp [downloadHandler, truthyOptStr, hne, hurl, hinfo, handleVideoInfo, videoInfoInvalid,
    jsEqBoolStr, hu, hmedia, handleMedia, ctHasVideo, hct, successHeaders, optStr]

/-- Witness for C10: a filename-less payload on concrete upstreams. -/
theorem c10_witness :
    downloadHandler none (some "https://instagram.com/reel/xyz") infoUpNoName mediaUpOk =
      ⟨.bytes 200
        [("Content-Type", "video/mp4"), ("Content-Length", "3"),
         ("Content-Disposition", "attachment; filename=undefined"),
         ("Accept-Ranges", "bytes"), ("Cache-Control", "public, max-age=3600")]
        [9, 9, 9], 1, 1⟩ :=
  c10_missing_filename_proceeds none "https://instagram.com/reel/xyz" "https://x/v.mp4"
    "video/mp4" "3" infoUpNoName mediaUpOk [9, 9, 9] 1 1
    (by decide) (by decide) (by decide) (by decide) (by decide)
